import Mathlib

/-!
Shallow embedding of vuegraf's time-window reconciliation and device-tree
extraction engine (src/vuegraf/datapoint.py, src/vuegraf/vuegraf.py,
src/vuegraf/config.py).

Modeling conventions:
* instants are integer seconds since the Unix epoch, UTC.  Every timestamp
  the program manipulates is a whole second (`now` is created with
  `microsecond=0`, and database timestamps are truncated to 19 characters
  before parsing), so `datetime.second` of an instant `t` is `t % 60`
  and truncation to the minute / hour / day is `t - t % 60` etc.;
* kWh readings are rationals (Python floats never hit rounding in the
  claims considered; the conversions multiply by integer constants);
* the Influx queries and the pyemvue network calls are abstracted to
  oracle functions carried in the parameter record: the last-timestamp
  query becomes an `Option Int`-valued oracle, `get_chart_usage` becomes a
  function from (device gid, channel number, scale, start, stop) to a list
  of optional readings plus the reported start instant.
-/

/-- Sink-agnostic content of a data point produced by `create_data_point`
(datapoint.py lines 11-56).  The two physical encodings (Influx v1 mapping
and Influx v2 `Point`) carry exactly these fields; which encoding is
selected by `influx_version` does not affect point content, so the
embedding keeps a single record.  The `time` field is optional because the
Python code stores whatever timestamp value it is handed (including
`None`). -/
structure MPoint where
  account_name : String
  device_name : String
  chan_name : String
  usage : ℚ
  time : Option Int
  detailed : String
deriving DecidableEq, Repr

/-- Embeds `create_data_point` (datapoint.py lines 11-56), restricted to
point content (tags `account_name`, `device_name` := channel name,
`tag_name` := the granularity tag value, field `usage`, time, and the
optional `station_name` := device name which is kept unconditionally in the
record). -/
def create_data_point (account_name device_name chan_name : String)
    (watts : ℚ) (timestamp : Option Int) (detailed : String) : MPoint :=
  ⟨account_name, device_name, chan_name, watts, timestamp, detailed⟩

/-- Embeds `get_last_db_timestamp` (datapoint.py lines 76-177).  The Influx
query (v1 or v2) is abstracted to its outcome `db_last`: the last stored
timestamp of the series, or `none` when no record exists (empty
`time_str`).  Mirrors the Python control flow exactly: when a record
exists, the minute branch and then the second branch run sequentially on
the mutated `(foo_start_time, foo_stop_time, foo_history_flag)` triple;
when no record exists, minute and second defaults are an if/elif chain.
Returns `(foo_start_time, foo_stop_time, foo_history_flag)`. -/
def get_last_db_timestamp (db_last : Option Int) (point_type : String)
    (foo_start_time foo_stop_time : Int) (foo_history_flag : Bool)
    (tag_value_minute tag_value_second : String)
    (detailed_interval_secs : Int) : Int × Int × Bool :=
  match db_last with
  | some db =>
    let r1 :=
      if point_type = tag_value_minute then
        if db < foo_stop_time - (120 + foo_stop_time % 60) then
          let s := db + 60
          let s := if foo_stop_time - s > 604800 then foo_stop_time - 604800 else s
          let t := if foo_stop_time - s > 43200 then s + 43200 else foo_stop_time
          (s, t, true)
        else (foo_start_time, foo_stop_time, foo_history_flag)
      else (foo_start_time, foo_stop_time, foo_history_flag)
    if point_type = tag_value_second then
      if db < r1.1 - 2 then
        let s := db + 1
        if r1.2.1 - s > 3600 then
          if 3600 ≤ detailed_interval_secs then
            (r1.2.1 - 3600, r1.2.1, true)
          else
            let s := if r1.2.1 - s > 10800 then r1.2.1 - 10800 else s
            let t := if r1.2.1 - s > 3600 then s + 3600 else r1.2.1
            (s, t, true)
        else (s, r1.2.1, true)
      else r1
    else r1
  | none =>
    if point_type = tag_value_minute then
      (foo_start_time - 604800, foo_start_time - 604800 + 43200, true)
    else if point_type = tag_value_second then
      (foo_start_time - 10800, foo_start_time - 10800 + 3600, true)
    else (foo_start_time, foo_stop_time, foo_history_flag)

/-- The aggregate pseudo-channels excluded from detail collection
(datapoint.py line 212). -/
def excluded_detail_channel_numbers : List String := ["Balance", "TotalUsage"]

/-- Embeds the per-sample emission loop repeated at the four fetch sites of
`extract_data_points` (datapoint.py lines 250-260, 294-303, 311-320,
323-334): walk the usage list with an index that advances on every entry,
skip `None` entries, and for each reading at index `i` emit one point with
value `watts_of reading` and timestamp `time_of i`. -/
def emit_usage_series (account_name device_name chan_name : String)
    (detailed : String) (watts_of : ℚ → ℚ) (time_of : Nat → Int) :
    Nat → List (Option ℚ) → List MPoint
  | _, [] => []
  | index, none :: rest =>
    emit_usage_series account_name device_name chan_name detailed watts_of
      time_of (index + 1) rest
  | index, some kwh :: rest =>
    create_data_point account_name device_name chan_name (watts_of kwh)
        (some (time_of index)) detailed ::
      emit_usage_series account_name device_name chan_name detailed watts_of
        time_of (index + 1) rest

mutual
/-- A device as consumed by `extract_data_points`: a gid and its channel
map (insertion-ordered, modeled as a list). -/
inductive VueDevice : Type where
  | mk : (device_gid : String) → (channels : List VueChannel) → VueDevice
/-- A channel: its channel number, the optional kWh usage reading for the
just-elapsed window, and the nested (sub-metered) devices attached to
it. -/
inductive VueChannel : Type where
  | mk : (channel_num : String) → (usage : Option ℚ) →
      (nested_devices : List VueDevice) → VueChannel
end

/-- The per-cycle and per-invocation inputs of `extract_data_points`
(datapoint.py lines 179-211), with all I/O collaborators abstracted to
oracles: `last_db_time dev chan tag` is the sink's last stored timestamp
for the series (the Influx query of `get_last_db_timestamp`), and
`get_chart_usage gid num scale start stop` is the metering API call.
`account_time_zone` is a fixed UTC offset in seconds. -/
structure ExtractParams where
  account_name : String
  lookup_device_name : String → String
  lookup_channel_name : String → String → String
  last_db_time : String → String → String → Option Int
  get_chart_usage : String → String → String → Int → Int → List (Option ℚ) × Int
  stop_time : Int
  detailed_start_time : Int
  collect_details : Bool
  detailed_seconds_enabled : Bool
  detailed_hours_enabled : Bool
  tag_value_minute : String
  tag_value_second : String
  tag_value_hour : String
  tag_value_day : String
  detailed_interval_secs : Int
  account_time_zone : Int
  point_type : Option String
  history_start_time : Option Int
  history_end_time : Option Int

/-- Embeds the minute-level catch-up fetch loop of `extract_data_points`
(datapoint.py lines 244-274), fuel-indexed: fetch `[s, t)` at minute
scale; emit one point per non-`None` sample (timestamps from the reported
start floored to the minute); if every sample was `None`, either advance
both endpoints forward by the window's own span capped at the global stop
time floored to the minute (when `t` has not yet reached it) and loop, or
exit.  `none` means the fuel ran out; the termination theorem shows fuel
`(G - t).toNat + 1` always suffices for a resolver-produced window. -/
def minute_catchup_loop (p : ExtractParams) (gid num device_name chan_name : String) :
    Nat → Int → Int → List MPoint → Option (List MPoint)
  | 0, _, _, _ => none
  | Nat.succ fuel, s, t, acc =>
    let G := p.stop_time - p.stop_time % 60
    let r := p.get_chart_usage gid num "1MIN" s t
    let base := r.2 - r.2 % 60
    let pts := emit_usage_series p.account_name device_name chan_name
      p.tag_value_minute (fun kwh => 60000 * kwh)
      (fun i => base + 60 * (i : Int)) 0 r.1
    let no_data := r.1.all (fun o => o.isNone)
    if no_data then
      if t < G then
        let interval := t - s
        let s1 := min (s + interval) G
        let t1 := min (t + interval) G
        minute_catchup_loop p gid num device_name chan_name fuel s1 t1 (acc ++ pts)
      else some (acc ++ pts)
    else some (acc ++ pts)

mutual
/-- Embeds `extract_data_points` (datapoint.py lines 179-334) at device
level: walk the channel map of the device. -/
def extract_data_points (p : ExtractParams) (d : VueDevice)
    (usage_data_points : List MPoint) : List MPoint :=
  match d with
  | .mk gid chans => extract_channels p gid chans usage_data_points

/-- The `for chan_num, chan in device.channels.items()` loop of
`extract_data_points` (datapoint.py line 219). -/
def extract_channels (p : ExtractParams) (gid : String)
    (cs : List VueChannel) (usage_data_points : List MPoint) : List MPoint :=
  match cs with
  | [] => usage_data_points
  | c :: rest => extract_channels p gid rest (extract_channel p gid c usage_data_points)

/-- The per-channel body of `extract_data_points` (datapoint.py lines
220-334): recurse into nested devices, then the live-minute /
hour-day-pass block guarded by a present usage reading, then the excluded
aggregate `continue`, then the once-per-hour second detail fetch, then the
historical hour and day fetches. -/
def extract_channel (p : ExtractParams) (gid : String) (c : VueChannel)
    (usage_data_points : List MPoint) : List MPoint :=
  match c with
  | .mk num usage nested =>
    let acc1 := extract_nested_devices p nested usage_data_points
    let device_name := p.lookup_device_name gid
    let chan_name := p.lookup_channel_name gid num
    let acc2 :=
      match usage with
      | none => acc1
      | some kwh =>
        match p.point_type with
        | none =>
          let r := get_last_db_timestamp
            (p.last_db_time device_name chan_name p.tag_value_minute)
            p.tag_value_minute p.stop_time p.stop_time false
            p.tag_value_minute p.tag_value_second p.detailed_interval_secs
          if r.2.2 = false ∨ num ∈ excluded_detail_channel_numbers then
            acc1 ++ [create_data_point p.account_name device_name chan_name
              (60000 * kwh) (some (p.stop_time - p.stop_time % 60))
              p.tag_value_minute]
          else if num ∉ excluded_detail_channel_numbers ∧ p.history_start_time = none then
            (minute_catchup_loop p gid num device_name chan_name
              (((p.stop_time - p.stop_time % 60) - r.2.1).toNat + 1)
              r.1 r.2.1 acc1).getD acc1
          else acc1
        | some pt =>
          if pt = p.tag_value_day ∨ pt = p.tag_value_hour then
            acc1 ++ [create_data_point p.account_name device_name chan_name
              (kwh * 1000) p.history_start_time pt]
          else acc1
    if num ∈ excluded_detail_channel_numbers then acc2
    else
      let acc3 :=
        if p.collect_details ∧ p.detailed_seconds_enabled ∧ p.history_start_time = none then
          let r := get_last_db_timestamp
            (p.last_db_time device_name chan_name p.tag_value_second)
            p.tag_value_second p.detailed_start_time p.stop_time
            p.detailed_seconds_enabled
            p.tag_value_minute p.tag_value_second p.detailed_interval_secs
          let f := p.get_chart_usage gid num "1S" r.1 r.2.1
          acc2 ++ emit_usage_series p.account_name device_name chan_name
            p.tag_value_second (fun kwh => 3600000 * kwh)
            (fun i => f.2 + (i : Int)) 0 f.1
        else acc2
      match p.history_start_time, p.history_end_time with
      | some hs, some he =>
        let fh := p.get_chart_usage gid num "1H" hs he
        let hbase := fh.2 - fh.2 % 3600
        let acc4 := acc3 ++ emit_usage_series p.account_name device_name chan_name
          p.tag_value_hour (fun kwh => kwh * 1000)
          (fun i => hbase + 3600 * (i : Int)) 0 fh.1
        let fd := p.get_chart_usage gid num "1D" hs he
        acc4 ++ emit_usage_series p.account_name device_name chan_name
          p.tag_value_day (fun kwh => kwh * 1000)
          (fun i =>
            ((fd.2 + p.account_time_zone + 86400 * (i : Int)) -
              (fd.2 + p.account_time_zone + 86400 * (i : Int)) % 86400 + 86399) -
              p.account_time_zone) 0 fd.1
      | _, _ => acc3

/-- The `for gid, nested_device in chan.nested_devices.items()` loop of
`extract_data_points` (datapoint.py lines 220-226). -/
def extract_nested_devices (p : ExtractParams) (ds : List VueDevice)
    (usage_data_points : List MPoint) : List MPoint :=
  match ds with
  | [] => usage_data_points
  | d :: rest => extract_nested_devices p rest (extract_data_points p d usage_data_points)
end

/-- Truncation of an instant (in some fixed frame) to its midnight:
`datetime.replace(hour=0, minute=0, second=0, microsecond=0)`. -/
def floor_day (t : Int) : Int := t - t % 86400

/-- Embeds the historical sub-batching loop of `main` (vuegraf.py lines
266-299), in local-time seconds (the account timezone is a fixed offset, so
the loop is expressed entirely in the local frame).  State `hs` is
`history_start_time`; while `hs ≤ stop_time_history`, the batch end is
`min (hs + 20 days) stop` re-anchored to 23:59:59 of its local day, the
window `(hs, he)` is emitted, and the next start is midnight of the day
after `he`.  Returns the list of `(history_start_time, history_end_time)`
windows in order. -/
def history_sub_windows (stop : Int) (hs : Int) : List (Int × Int) :=
  if _h : hs ≤ stop then
    let he0 := min (hs + 1728000) stop
    let he := floor_day he0 + 86399
    (hs, he) :: history_sub_windows stop (floor_day (he + 86400))
  else []
termination_by (stop + 1 - hs).toNat
decreasing_by
  have hm : hs ≤ (hs + 1728000) ⊓ stop := le_min (by omega) _h
  simp only [floor_day]
  generalize (hs + 1728000) ⊓ stop = m at hm ⊢
  have e : m - m % 86400 = 86400 * (m / 86400) := by rw [Int.emod_def]; ring
  have key : (m - m % 86400 + 86399 + 86400) - (m - m % 86400 + 86399 + 86400) % 86400
      = m - m % 86400 + 86400 := by
    rw [e, show (86400 : Int) * (m / 86400) + 86399 + 86400
        = 86399 + 86400 * (m / 86400 + 1) by ring, Int.add_mul_emod_self_left]
    norm_num
    ring
  rw [key]
  omega

/-- Entry point of the historical loop: the initial `history_start_time` is
`stop_time_history - history_days` days, re-anchored to local midnight
(vuegraf.py lines 269-270). -/
def history_batches (history_days : Int) (stop : Int) : List (Int × Int) :=
  history_sub_windows stop (floor_day (stop - 86400 * history_days))

/-- Embeds `get_config_value` (config.py lines 23-37): return the
configured value when the key is present, else the default. -/
def get_config_value (config : String → Option Int) (key : String)
    (default_value : Int) : Int :=
  match config key with
  | some v => v
  | none => default_value

/-- Embeds the history-days resolution of `main` (vuegraf.py lines
174-176): `max_history_days` comes from the config with default 720,
`history_days = min(args.historydays, max_history_days)`, and the one-time
historical backfill mode is entered when `history_days > 0`.  Returns
`(history_days, history)`. -/
def resolve_history_days (config : String → Option Int)
    (args_historydays : Int) : Int × Bool :=
  let max_history_days := get_config_value config "maxHistoryDays" 720
  let history_days := min args_historydays max_history_days
  (history_days, history_days > 0)

/-- One account's contribution to a collection cycle, as seen by the
buffer-discipline logic of `main` (vuegraf.py lines 215-321): the points
its extraction appends to the shared `usage_data_points` list, and whether
its sink write raises (the `except` at lines 319-321 swallows the error
and moves to the next account). -/
structure AccountRun where
  pts : List MPoint
  write_fails : Bool

/-- Embeds the per-account flush path of one non-historical collection
cycle of `main` (vuegraf.py lines 204-321): the shared buffer
`usage_data_points` starts as the given list; each account appends its
points to the buffer and then a write of the whole buffer is attempted
(the buffer is not cleared afterwards).  Returns the list of successful
sink writes, in order; a failing write contributes no successful write but
leaves the buffer unchanged, exactly like the Python exception path. -/
def cycle_account_flushes (usage_data_points : List MPoint) :
    List AccountRun → List (List MPoint)
  | [] => []
  | a :: rest =>
    let buffer := usage_data_points ++ a.pts
    if a.write_fails then cycle_account_flushes buffer rest
    else buffer :: cycle_account_flushes buffer rest

/-- One full cycle starts with an empty buffer (vuegraf.py line 205). -/
def run_cycle_flushes (accounts : List AccountRun) : List (List MPoint) :=
  cycle_account_flushes [] accounts

/-- A concrete parameter record for witness instantiations: default tag
values, no stored records, a metering API that always answers a single
`None` sample starting at 0. -/
def c9_params : ExtractParams where
  account_name := "acct"
  lookup_device_name := fun gid => gid
  lookup_channel_name := fun _ num => num
  last_db_time := fun _ _ _ => none
  get_chart_usage := fun _ _ _ _ _ => ([none], 0)
  stop_time := 120
  detailed_start_time := 0
  collect_details := false
  detailed_seconds_enabled := false
  detailed_hours_enabled := false
  tag_value_minute := "False"
  tag_value_second := "True"
  tag_value_hour := "Hour"
  tag_value_day := "Day"
  detailed_interval_secs := 3600
  account_time_zone := 0
  point_type := none
  history_start_time := none
  history_end_time := none

/-- Parameters of a per-hour collection pass (vuegraf.py lines 234-248):
`point_type` is the hour tag value and `history_start_time` is the past
hour; `history_end_time` is not supplied by that call site. -/
def c2_params : ExtractParams where
  account_name := "acct"
  lookup_device_name := fun gid => gid
  lookup_channel_name := fun _ num => num
  last_db_time := fun _ _ _ => none
  get_chart_usage := fun _ _ _ _ _ => ([], 0)
  stop_time := 1000000
  detailed_start_time := 0
  collect_details := true
  detailed_seconds_enabled := true
  detailed_hours_enabled := true
  tag_value_minute := "False"
  tag_value_second := "True"
  tag_value_hour := "Hour"
  tag_value_day := "Day"
  detailed_interval_secs := 3600
  account_time_zone := 0
  point_type := some "Hour"
  history_start_time := some 996400
  history_end_time := none

/-- A device whose only channel is the aggregate pseudo-channel "Balance"
with a present usage reading and no nested devices. -/
def c2_device : VueDevice := VueDevice.mk "g" [VueChannel.mk "Balance" (some 2) []]

/-- Parameters of a live (non-historical) collection pass (vuegraf.py
lines 222-232): `point_type` is `None` and no history bounds are set; the
sink has no stored record for any series. -/
def c8_params : ExtractParams where
  account_name := "acct"
  lookup_device_name := fun gid => gid
  lookup_channel_name := fun _ num => num
  last_db_time := fun _ _ _ => none
  get_chart_usage := fun _ _ _ _ _ => ([some 1], 0)
  stop_time := 1000000
  detailed_start_time := 0
  collect_details := true
  detailed_seconds_enabled := true
  detailed_hours_enabled := true
  tag_value_minute := "False"
  tag_value_second := "True"
  tag_value_hour := "Hour"
  tag_value_day := "Day"
  detailed_interval_secs := 3600
  account_time_zone := 0
  point_type := none
  history_start_time := none
  history_end_time := none

/-- A device whose only channel is the aggregate pseudo-channel "Balance"
with usage reading 3 kWh-per-minute and no nested devices. -/
def c8_device : VueDevice := VueDevice.mk "g" [VueChannel.mk "Balance" (some 3) []]

mutual
/-- Every channel number appearing anywhere in the device tree is an
excluded aggregate pseudo-channel. -/
def device_all_excluded : VueDevice → Bool
  | .mk _ cs => channels_all_excluded cs
/-- All-excluded check over a channel list. -/
def channels_all_excluded : List VueChannel → Bool
  | [] => true
  | c :: rest => channel_all_excluded c && channels_all_excluded rest
/-- All-excluded check for one channel and its nested devices. -/
def channel_all_excluded : VueChannel → Bool
  | .mk num _ ds =>
    decide (num ∈ excluded_detail_channel_numbers) && devices_all_excluded ds
/-- All-excluded check over a device list. -/
def devices_all_excluded : List VueDevice → Bool
  | [] => true
  | d :: rest => device_all_excluded d && devices_all_excluded rest
end

/-- The granularity tags an excluded aggregate channel can put on a point:
the minute tag (live conversion, datapoint.py lines 238-242) or the
invocation's own `point_type` when that is the hour/day pass tag
(datapoint.py lines 275-279). -/
def allowed_excluded_tag (p : ExtractParams) (pt : MPoint) : Prop :=
  pt.detailed = p.tag_value_minute ∨ p.point_type = some pt.detailed

/-! ## Helper lemmas -/

/-- Specialization of the resolver: minute-series call, no prior record,
minute and second tag values distinct (as in every valid configuration;
the defaults are "False" and "True"). -/
theorem get_last_db_timestamp_minute_none (s t : Int) (f : Bool)
    (tvm tvs : String) (dis : Int) :
    get_last_db_timestamp none tvm s t f tvm tvs dis =
      (s - 604800, s - 604800 + 43200, true) := by
  simp [get_last_db_timestamp]

/-- Specialization of the resolver: minute-series call with a prior
record, minute and second tag values distinct. -/
theorem get_last_db_timestamp_minute_some (dbt : Int) (s t : Int) (f : Bool)
    (tvm tvs : String) (dis : Int) (hne : tvm ≠ tvs) :
    get_last_db_timestamp (some dbt) tvm s t f tvm tvs dis =
      (if dbt < t - (120 + t % 60) then
        let s1 := dbt + 60
        let s2 := if t - s1 > 604800 then t - 604800 else s1
        let t2 := if t - s2 > 43200 then s2 + 43200 else t
        (s2, t2, true)
      else (s, t, f)) := by
  simp only [get_last_db_timestamp, if_neg hne, eq_self_iff_true, if_true]

/-- Specialization of the resolver: second-series call, no prior record,
minute and second tag values distinct. -/
theorem get_last_db_timestamp_second_none (s t : Int) (f : Bool)
    (tvm tvs : String) (dis : Int) (hne : tvm ≠ tvs) :
    get_last_db_timestamp none tvs s t f tvm tvs dis =
      (s - 10800, s - 10800 + 3600, true) := by
  simp [get_last_db_timestamp, Ne.symm hne]

/-- Specialization of the resolver: second-series call with a prior
record, minute and second tag values distinct. -/
theorem get_last_db_timestamp_second_some (dbt : Int) (s t : Int) (f : Bool)
    (tvm tvs : String) (dis : Int) (hne : tvm ≠ tvs) :
    get_last_db_timestamp (some dbt) tvs s t f tvm tvs dis =
      (if dbt < s - 2 then
        let s1 := dbt + 1
        if t - s1 > 3600 then
          if 3600 ≤ dis then (t - 3600, t, true)
          else
            let s2 := if t - s1 > 10800 then t - 10800 else s1
            let t2 := if t - s2 > 3600 then s2 + 3600 else t
            (s2, t2, true)
        else (s1, t, true)
      else (s, t, f)) := by
  simp only [get_last_db_timestamp, if_neg (Ne.symm hne), eq_self_iff_true, if_true]

/-! ## Claim theorems -/

/-- C6: at every fetch site, a `None` usage entry never produces a point
and the running index still advances past it, so the point built from a
non-`None` entry at list position `i` carries the timestamp `time_of i`
(at the four sites `time_of` is the reported window start plus `i`
minutes / seconds / hours / days respectively).  Stated as: the emitted
series is exactly the index-enumerated usage list with the `None` slots
filtered out. -/
theorem c6_none_sample_never_emits_and_index_advances
    (account_name device_name chan_name detailed : String)
    (watts_of : ℚ → ℚ) (time_of : Nat → Int) (i : Nat)
    (usage : List (Option ℚ)) :
    emit_usage_series account_name device_name chan_name detailed watts_of
        time_of i usage =
      (usage.enumFrom i).filterMap (fun q => q.2.map (fun kwh =>
        create_data_point account_name device_name chan_name (watts_of kwh)
          (some (time_of q.1)) detailed)) := by
  induction usage generalizing i with
  | nil => simp [emit_usage_series]
  | cons o rest ih =>
    cases o with
    | none => simpa [emit_usage_series, List.enumFrom, List.filterMap_cons] using ih (i + 1)
    | some kwh => simpa [emit_usage_series, List.enumFrom, List.filterMap_cons] using ih (i + 1)

/-- C10: the number of historical days actually used is the minimum of the
CLI-requested days and the configured `maxHistoryDays` (default 720), and
historical backfill mode is entered exactly when that minimum is positive;
an over-cap request is reduced to the cap, never rejected. -/
theorem c10_history_days_capped_min (config : String → Option Int)
    (args_historydays : Int) :
    (resolve_history_days config args_historydays).1 =
        min args_historydays (get_config_value config "maxHistoryDays" 720) ∧
      (resolve_history_days config args_historydays).2 =
        decide (0 < min args_historydays (get_config_value config "maxHistoryDays" 720)) := by
  exact ⟨rfl, rfl⟩

/-- C5 counterexample: two accounts in one cycle; account A contributes one
point and its sink write fails (exception swallowed at vuegraf.py lines
319-321); account B contributes one point and its write succeeds.  The
cycle's only successful write — account B's batch — is the two-element
list that still contains account A's point: the buffer is not emptied
after a flush attempt, and a failed account's points are carried into and
re-written with the next account's batch, contrary to the claim. -/
theorem c5_counterexample :
    run_cycle_flushes
        [⟨[create_data_point "acct" "dev" "chanA" 1 (some 0) "False"], true⟩,
         ⟨[create_data_point "acct" "dev" "chanB" 2 (some 60) "False"], false⟩] =
      [[create_data_point "acct" "dev" "chanA" 1 (some 0) "False",
        create_data_point "acct" "dev" "chanB" 2 (some 60) "False"]] ∧
    create_data_point "acct" "dev" "chanA" 1 (some 0) "False" ∈
      [create_data_point "acct" "dev" "chanA" 1 (some 0) "False",
       create_data_point "acct" "dev" "chanB" 2 (some 60) "False"] := by
  exact ⟨rfl, by simp⟩

/-- C5 amended: the accumulation buffer is reset only at the start of each
cycle; the per-account end-of-cycle flush does not empty it, so whatever
is in the buffer when an account is processed — including points of
earlier accounts whose writes failed — stays there and is contained in
every later flush of the cycle: each write issued after processing some
accounts extends the buffer contents that preceded those accounts. -/
theorem c5_buffer_never_cleared_after_flush (usage_data_points : List MPoint)
    (accounts : List AccountRun) (w : List MPoint)
    (hw : w ∈ cycle_account_flushes usage_data_points accounts) :
    ∃ rest, w = usage_data_points ++ rest := by
  induction accounts generalizing usage_data_points with
  | nil => simp [cycle_account_flushes] at hw
  | cons a r ih =>
    simp only [cycle_account_flushes] at hw
    rcases h : a.write_fails with hf | ht
    · rw [h, if_neg (by simp)] at hw
      rcases List.mem_cons.mp hw with h1 | h2
      · exact ⟨a.pts, h1⟩
      · rcases ih _ h2 with ⟨rest, hrest⟩
        exact ⟨a.pts ++ rest, by simp [hrest]⟩
    · rw [h, if_pos rfl] at hw
      rcases ih _ hw with ⟨rest, hrest⟩
      exact ⟨a.pts ++ rest, by simp [hrest]⟩

/-- C5 witness: instantiates the amended theorem on the counterexample
cycle, showing the concrete carried-over batch. -/
theorem c5_buffer_never_cleared_after_flush_witness :
    ([create_data_point "acct" "dev" "chanA" 1 (some 0) "False"] ∈
        cycle_account_flushes [create_data_point "acct" "dev" "chanA" 1 (some 0) "False"]
          [⟨[], false⟩]) ∧
      ∃ rest, [create_data_point "acct" "dev" "chanA" 1 (some 0) "False"] =
        [create_data_point "acct" "dev" "chanA" 1 (some 0) "False"] ++ rest :=
  ⟨by decide,
    c5_buffer_never_cleared_after_flush
      [create_data_point "acct" "dev" "chanA" 1 (some 0) "False"] [⟨[], false⟩]
      [create_data_point "acct" "dev" "chanA" 1 (some 0) "False"] (by decide)⟩

/-- C7: when the last stored minute timestamp is `T0` and the proposed
stop time is `T0 + 3` minutes, the minute-series resolver call (made by
`extract_data_points` with proposed start = proposed stop = stop time and
input flag `False`) reports backfill needed, with adjusted start exactly
`T0 + 1` minute, adjusted stop unchanged, hence a span of 3 minutes
(≤ 12 hours).  Requires only that the minute and second tag values are
distinct, which holds in every configuration (defaults "False"/"True"). -/
theorem c7_minute_gap_three_minutes (T0 s dis : Int) (tvm tvs : String)
    (hne : tvm ≠ tvs) :
    get_last_db_timestamp (some T0) tvm s (T0 + 180) false tvm tvs dis =
      (T0 + 60, T0 + 180, true) := by
  rw [get_last_db_timestamp_minute_some _ _ _ _ _ _ _ hne]
  have h60 : (T0 + 180) % 60 = T0 % 60 := by omega
  have htrig : T0 < T0 + 180 - (120 + (T0 + 180) % 60) := by omega
  simp only [htrig, if_pos]
  have h1 : ¬(T0 + 180 - (T0 + 60) > 604800) := by omega
  rw [if_neg h1]
  have h2 : ¬(T0 + 180 - (T0 + 60) > 43200) := by omega
  rw [if_neg h2]

/-- C7 witness: the scenario at `T0 = 1000000`, default tag values. -/
theorem c7_minute_gap_three_minutes_witness :
    get_last_db_timestamp (some 1000000) "False" 999999 (1000000 + 180) false
        "False" "True" 3600 = (1000000 + 60, 1000000 + 180, true) :=
  c7_minute_gap_three_minutes 1000000 999999 3600 "False" "True" (by decide)

/-- C4 counterexample: with no prior stored record for a SECOND series and
detail interval 7200 s, the resolver called with proposed start 0 and
proposed stop 100 returns the window `(-10800, -7200)`: the adjusted stop
equals the proposed start minus 2 hours, not the proposed stop time as the
claim states. -/
theorem c4_counterexample :
    get_last_db_timestamp none "True" 0 100 false "False" "True" 7200 =
        (-10800, -7200, true) ∧
      ¬((-7200 : Int) = 100) := by
  exact ⟨rfl, by decide⟩

/-- C4 amended: with no prior stored record for a SECOND series (any
detail interval — the no-record default branch ignores it, the claim's
7200 s included), the resolver returns the window from proposed start
minus 3 hours to proposed start minus 2 hours: a span of exactly 1 hour,
ending at the proposed start minus 2 hours rather than at the proposed
stop. -/
theorem c4_second_no_record_window (s t : Int) (f : Bool) (tvm tvs : String)
    (hne : tvm ≠ tvs) :
    get_last_db_timestamp none tvs s t f tvm tvs 7200 =
        (s - 10800, s - 7200, true) ∧
      (s - 7200) - (s - 10800) = 3600 := by
  rw [get_last_db_timestamp_second_none _ _ _ _ _ _ hne]
  exact ⟨by rw [show s - 10800 + 3600 = s - 7200 by ring], by ring⟩

/-- C4 witness: the no-record second-series scenario at proposed window
(0, 100), default tag values. -/
theorem c4_second_no_record_window_witness :
    (get_last_db_timestamp none "True" 0 100 false "False" "True" 7200 =
        ((0 : Int) - 10800, (0 : Int) - 7200, true)) ∧
      ((0 : Int) - 7200) - ((0 : Int) - 10800) = 3600 :=
  c4_second_no_record_window 0 100 false "False" "True" (by decide)

/-- C1 counterexample: a second-series call (default tags) whose last
stored record is recent enough that no backfill is triggered returns the
proposed window unchanged.  With proposed start 0 and proposed stop 7200
the returned window spans 7200 s, exceeding the SECOND granularity's
claimed 1-hour maximum single-fetch span — so the bounds do not hold for
every last-stored timestamp and proposed window. -/
theorem c1_counterexample :
    get_last_db_timestamp (some (-1)) "True" 0 7200 false "False" "True" 1800 =
        (0, 7200, false) ∧
      ¬((get_last_db_timestamp (some (-1)) "True" 0 7200 false "False" "True" 1800).2.1 -
          (get_last_db_timestamp (some (-1)) "True" 0 7200 false "False" "True" 1800).1 ≤ 3600) := by
  exact ⟨rfl, by decide⟩

/-- C1 amended: the span / lookback / ordering bounds hold for every
window the resolver actually adjusts, that is whenever backfill is
triggered (no prior record, or a last record older than the granularity's
trigger threshold), for proposed start ≤ proposed stop and distinct
minute/second tag values: the returned flag is true, adjusted start ≤
adjusted stop, the span is at most 12 h for MINUTE and 1 h for SECOND, and
the adjusted start is no earlier than the adjusted stop minus 7 days for
MINUTE, minus 3 h for SECOND (1 h when the detail interval is ≥ 3600 s).
When backfill is not triggered the proposed window is returned unchanged
and may violate all three bounds (see the counterexample). -/
theorem c1_resolver_window_bounds (db : Option Int) (pt tvm tvs : String)
    (dis s t : Int) (f0 : Bool) (hne : tvm ≠ tvs) (hst : s ≤ t)
    (hpt : pt = tvm ∨ pt = tvs)
    (htrig : ∀ dbt, db = some dbt →
      if pt = tvm then dbt < t - (120 + t % 60) else dbt < s - 2) :
    (get_last_db_timestamp db pt s t f0 tvm tvs dis).2.2 = true ∧
    (get_last_db_timestamp db pt s t f0 tvm tvs dis).1 ≤
      (get_last_db_timestamp db pt s t f0 tvm tvs dis).2.1 ∧
    (get_last_db_timestamp db pt s t f0 tvm tvs dis).2.1 -
        (get_last_db_timestamp db pt s t f0 tvm tvs dis).1 ≤
      (if pt = tvm then 43200 else 3600) ∧
    (get_last_db_timestamp db pt s t f0 tvm tvs dis).2.1 -
        (if pt = tvm then (604800 : Int) else if 3600 ≤ dis then 3600 else 10800) ≤
      (get_last_db_timestamp db pt s t f0 tvm tvs dis).1 := by
  rcases hpt with hm | hs2
  · subst hm
    simp only [eq_self_iff_true, if_true]
    cases db with
    | none =>
      rw [get_last_db_timestamp_minute_none]
      dsimp only
      exact ⟨rfl, by omega, by omega, by omega⟩
    | some dbt =>
      have ht := htrig dbt rfl
      simp only [eq_self_iff_true, if_true] at ht
      rw [get_last_db_timestamp_minute_some _ _ _ _ _ _ _ hne, if_pos ht]
      dsimp only
      split_ifs with h1 h2 h2 <;>
        exact ⟨rfl, by omega, by omega, by omega⟩
  · subst hs2
    simp only [if_neg (Ne.symm hne)]
    cases db with
    | none =>
      rw [get_last_db_timestamp_second_none _ _ _ _ _ _ hne]
      dsimp only
      refine ⟨rfl, by omega, by omega, ?_⟩
      split_ifs with h1 <;> omega
    | some dbt =>
      have ht := htrig dbt rfl
      rw [if_neg (Ne.symm hne)] at ht
      rw [get_last_db_timestamp_second_some _ _ _ _ _ _ _ hne, if_pos ht]
      dsimp only
      split_ifs with h1 h2 h3 h4 h3 <;> (try dsimp only) <;>
        exact ⟨rfl, by omega, by omega, by omega⟩

/-- C1 witness: a minute-series call with last stored record at 0 and
proposed window (1000000, 1000000): the trigger condition holds and the
theorem yields the bounds at this input. -/
theorem c1_resolver_window_bounds_witness :
    (get_last_db_timestamp (some 0) "False" 1000000 1000000 false "False" "True" 0).2.2 = true ∧
    (get_last_db_timestamp (some 0) "False" 1000000 1000000 false "False" "True" 0).1 ≤
      (get_last_db_timestamp (some 0) "False" 1000000 1000000 false "False" "True" 0).2.1 ∧
    (get_last_db_timestamp (some 0) "False" 1000000 1000000 false "False" "True" 0).2.1 -
        (get_last_db_timestamp (some 0) "False" 1000000 1000000 false "False" "True" 0).1 ≤
      (if "False" = "False" then 43200 else 3600) ∧
    (get_last_db_timestamp (some 0) "False" 1000000 1000000 false "False" "True" 0).2.1 -
        (if "False" = "False" then (604800 : Int) else if 3600 ≤ (0 : Int) then 3600 else 10800) ≤
      (get_last_db_timestamp (some 0) "False" 1000000 1000000 false "False" "True" 0).1 :=
  c1_resolver_window_bounds (some 0) "False" "False" "True" 0 1000000 1000000 false
    (by decide) (by omega) (Or.inl rfl)
    (fun dbt h => by injection h with h1; rw [← h1]; decide)

/-- Fuel sufficiency for the minute catch-up loop: starting from a window
with positive span, `(G - t).toNat + 1` steps always reach one of the two
exits, whatever the metering API answers. -/
theorem minute_catchup_loop_fuel_sufficient (p : ExtractParams)
    (gid num device_name chan_name : String) :
    ∀ (fuel : Nat) (s t : Int) (acc : List MPoint), s < t →
      ((p.stop_time - p.stop_time % 60) - t).toNat < fuel →
      (minute_catchup_loop p gid num device_name chan_name fuel s t acc).isSome = true := by
  intro fuel
  induction fuel with
  | zero => intro s t acc _ hb; exact absurd hb (Nat.not_lt_zero _)
  | succ fuel ih =>
    intro s t acc hst hb
    simp only [minute_catchup_loop]
    by_cases hnd : (p.get_chart_usage gid num "1MIN" s t).1.all (fun o => o.isNone)
    · rw [if_pos hnd]
      by_cases hG : t < p.stop_time - p.stop_time % 60
      · rw [if_pos hG]
        have hs1 : min (s + (t - s)) (p.stop_time - p.stop_time % 60) = t := by
          rw [show s + (t - s) = t by ring]
          exact min_eq_left (le_of_lt hG)
        have ht1a : t < min (t + (t - s)) (p.stop_time - p.stop_time % 60) :=
          lt_min (by omega) hG
        have ht1b : min (t + (t - s)) (p.stop_time - p.stop_time % 60) ≤
            p.stop_time - p.stop_time % 60 := min_le_right _ _
        exact ih _ _ _ (by omega) (by omega)
      · rw [if_neg hG]
        rfl
    · rw [if_neg hnd]
      rfl

/-- C9: for every resolved backfill window (positive span, as the
resolver always produces when it triggers), the minute catch-up loop
terminates without error for every metering-API behavior: an all-`None`
fetch advances the window by its own span with both endpoints capped at
the global stop time floored to the minute, and the loop exits once a
sample is emitted or the window stop reaches that cap — within
`(G - t).toNat + 1` iterations, where `G` is the capped global stop. -/
theorem c9_minute_catchup_loop_terminates (p : ExtractParams)
    (gid num device_name chan_name : String) (s t : Int) (acc : List MPoint)
    (hst : s < t) :
    (minute_catchup_loop p gid num device_name chan_name
      (((p.stop_time - p.stop_time % 60) - t).toNat + 1) s t acc).isSome = true :=
  minute_catchup_loop_fuel_sufficient p gid num device_name chan_name _ s t acc hst
    (Nat.lt_succ_self _)

/-- C9 witness: the loop terminates on the concrete window (0, 60) under
an API that always answers a single `None` sample. -/
theorem c9_minute_catchup_loop_terminates_witness :
    (0 : Int) < 60 ∧
      (minute_catchup_loop c9_params "g" "1" "d" "c"
        (((c9_params.stop_time - c9_params.stop_time % 60) - 60).toNat + 1)
        0 60 []).isSome = true :=
  ⟨by decide, c9_minute_catchup_loop_terminates c9_params "g" "1" "d" "c" 0 60 [] (by decide)⟩

/-- C8: during live collection (`point_type` is `None`) a channel in the
excluded aggregate set with a usage reading present and no prior minute
record stored emits exactly one minute point — value
`usage_kWh * 60 * 1000` watts, timestamped at the stop time with seconds
zeroed — and never enters the catch-up loop (the resolver reports
backfill, but the excluded-channel disjunct routes to the simple
conversion branch), nor the second/hour/day blocks (the aggregate
`continue`). -/
theorem c8_excluded_channel_emits_single_minute_point (p : ExtractParams)
    (gid num : String) (u : ℚ)
    (hnum : num ∈ excluded_detail_channel_numbers)
    (hpt : p.point_type = none)
    (hdb : p.last_db_time (p.lookup_device_name gid)
      (p.lookup_channel_name gid num) p.tag_value_minute = none) :
    extract_data_points p (VueDevice.mk gid [VueChannel.mk num (some u) []]) [] =
      [create_data_point p.account_name (p.lookup_device_name gid)
        (p.lookup_channel_name gid num) (60000 * u)
        (some (p.stop_time - p.stop_time % 60)) p.tag_value_minute] := by
  simp [extract_data_points, extract_channels, extract_channel,
    extract_nested_devices, hpt, hdb, get_last_db_timestamp_minute_none, hnum]

/-- C8 witness: the "Balance" channel of `c8_device` under `c8_params`. -/
theorem c8_excluded_channel_emits_single_minute_point_witness :
    ("Balance" ∈ excluded_detail_channel_numbers) ∧
      extract_data_points c8_params c8_device [] =
        [create_data_point c8_params.account_name
          (c8_params.lookup_device_name "g")
          (c8_params.lookup_channel_name "g" "Balance") (60000 * 3)
          (some (c8_params.stop_time - c8_params.stop_time % 60))
          c8_params.tag_value_minute] :=
  ⟨by decide, c8_excluded_channel_emits_single_minute_point c8_params "g" "Balance" 3
    (by decide) rfl rfl⟩

/-- C2 counterexample: during a per-hour collection pass
(`point_type = "Hour"`, as invoked from vuegraf.py lines 234-248), the
excluded aggregate channel "Balance" with a present usage reading appends
an hour-granularity point (datapoint.py lines 275-279, which run before
the aggregate `continue` at line 281) — contradicting the claim that an
excluded channel can only produce minute-granularity points. -/
theorem c2_counterexample :
    ("Balance" ∈ excluded_detail_channel_numbers) ∧
      extract_data_points c2_params c2_device [] =
        [create_data_point "acct" "g" "Balance" 2000 (some 996400) "Hour"] ∧
      ("Hour" : String) ≠ c2_params.tag_value_minute := by
  refine ⟨by decide, ?_, by decide⟩
  simp +decide [extract_data_points, extract_channels, extract_channel,
    extract_nested_devices, c2_params, c2_device, create_data_point]
  norm_num

mutual
/-- Excluded-tree invariant, device level: extraction over a tree whose
channels are all excluded aggregates only appends points tagged with the
minute tag or the invocation's own pass tag. -/
theorem extract_data_points_excluded_aux (p : ExtractParams) (d : VueDevice)
    (acc : List MPoint) (h : device_all_excluded d = true) :
    ∀ pt ∈ extract_data_points p d acc, pt ∈ acc ∨ allowed_excluded_tag p pt :=
  match d with
  | .mk gid cs => by
    rw [extract_data_points]
    exact extract_channels_excluded_aux p gid cs acc
      (by simpa [device_all_excluded] using h)

/-- Excluded-tree invariant, channel-list level. -/
theorem extract_channels_excluded_aux (p : ExtractParams) (gid : String)
    (cs : List VueChannel) (acc : List MPoint)
    (h : channels_all_excluded cs = true) :
    ∀ pt ∈ extract_channels p gid cs acc, pt ∈ acc ∨ allowed_excluded_tag p pt :=
  match cs with
  | [] => by
    rw [extract_channels]
    exact fun pt hpt => Or.inl hpt
  | c :: rest => by
    rw [extract_channels]
    have hc : channel_all_excluded c = true ∧ channels_all_excluded rest = true := by
      simpa [channels_all_excluded, Bool.and_eq_true] using h
    intro pt hpt
    rcases extract_channels_excluded_aux p gid rest _ hc.2 pt hpt with h1 | h2
    · exact extract_channel_excluded_aux p gid c acc hc.1 pt h1
    · exact Or.inr h2

/-- Excluded-tree invariant, single-channel level: an excluded channel can
only append the simple minute point or the hour/day pass point. -/
theorem extract_channel_excluded_aux (p : ExtractParams) (gid : String)
    (c : VueChannel) (acc : List MPoint) (h : channel_all_excluded c = true) :
    ∀ pt ∈ extract_channel p gid c acc, pt ∈ acc ∨ allowed_excluded_tag p pt :=
  match c with
  | .mk num usage ds => by
    have hsplit : (num ∈ excluded_detail_channel_numbers) ∧
        devices_all_excluded ds = true := by
      simpa [channel_all_excluded, Bool.and_eq_true] using h
    have hnested := extract_nested_devices_excluded_aux p ds acc hsplit.2
    rw [extract_channel.eq_def]
    dsimp only
    rw [if_pos hsplit.1]
    cases usage with
    | none => exact hnested
    | some kwh =>
      cases hptv : p.point_type with
      | none =>
        dsimp only
        rw [if_pos (Or.inr hsplit.1)]
        intro pt hpt
        rcases List.mem_append.mp hpt with h1 | h2
        · exact hnested pt h1
        · right
          rw [List.mem_singleton.mp h2]
          exact Or.inl rfl
      | some ptv =>
        dsimp only
        split_ifs with hday
        · intro pt hpt
          rcases List.mem_append.mp hpt with h1 | h2
          · exact hnested pt h1
          · right
            rw [List.mem_singleton.mp h2]
            exact Or.inr hptv
        · exact hnested

/-- Excluded-tree invariant, nested-device-list level. -/
theorem extract_nested_devices_excluded_aux (p : ExtractParams)
    (ds : List VueDevice) (acc : List MPoint)
    (h : devices_all_excluded ds = true) :
    ∀ pt ∈ extract_nested_devices p ds acc, pt ∈ acc ∨ allowed_excluded_tag p pt :=
  match ds with
  | [] => by
    rw [extract_nested_devices]
    exact fun pt hpt => Or.inl hpt
  | d :: rest => by
    rw [extract_nested_devices]
    have hd : device_all_excluded d = true ∧ devices_all_excluded rest = true := by
      simpa [devices_all_excluded, Bool.and_eq_true] using h
    intro pt hpt
    rcases extract_nested_devices_excluded_aux p rest _ hd.2 pt hpt with h1 | h2
    · exact extract_data_points_excluded_aux p d acc hd.1 pt h1
    · exact Or.inr h2
end

/-- C2 amended: a channel in the excluded aggregate set never causes a
second-granularity point nor a historical-fetch hour/day point (the
aggregate `continue` at datapoint.py line 281 precedes both blocks), but
during an hour/day collection pass it does append a point tagged with that
pass's `point_type` (datapoint.py lines 275-279).  So over a tree of
excluded channels every appended point is tagged either with the minute
tag or with the invocation's own pass tag — never the second tag and
never a tag from the historical hour/day block. -/
theorem c2_excluded_channel_minute_or_pass_tag_only (p : ExtractParams)
    (d : VueDevice) (h : device_all_excluded d = true) (pt : MPoint)
    (hpt : pt ∈ extract_data_points p d []) :
    pt.detailed = p.tag_value_minute ∨ p.point_type = some pt.detailed := by
  rcases extract_data_points_excluded_aux p d [] h pt hpt with h0 | h1
  · simp at h0
  · exact h1

/-- C2 witness: the hour point emitted by the "Balance" channel of
`c2_device` during the hour pass of `c2_params` carries the pass tag. -/
theorem c2_excluded_channel_minute_or_pass_tag_only_witness :
    (device_all_excluded c2_device = true) ∧
      ((create_data_point "acct" "g" "Balance" 2000 (some 996400) "Hour").detailed =
          c2_params.tag_value_minute ∨
        c2_params.point_type =
          some (create_data_point "acct" "g" "Balance" 2000 (some 996400) "Hour").detailed) :=
  ⟨by simp [device_all_excluded, channels_all_excluded, channel_all_excluded,
      devices_all_excluded, c2_device, excluded_detail_channel_numbers],
    c2_excluded_channel_minute_or_pass_tag_only c2_params c2_device
      (by simp [device_all_excluded, channels_all_excluded, channel_all_excluded,
        devices_all_excluded, c2_device, excluded_detail_channel_numbers])
      (create_data_point "acct" "g" "Balance" 2000 (some 996400) "Hour")
      (by
        simp +decide [extract_data_points, extract_channels, extract_channel,
          extract_nested_devices, c2_params, c2_device, create_data_point]
        norm_num)⟩

/-- Truncation to midnight is a multiple of a day. -/
theorem floor_day_emod (y : Int) : floor_day y % 86400 = 0 := by
  have e : floor_day y = 86400 * (y / 86400) := by
    simp only [floor_day, Int.emod_def]
    ring
  rw [e, Int.mul_emod_right]

/-- Truncation to midnight does not increase. -/
theorem floor_day_le (y : Int) : floor_day y ≤ y := by
  simp only [floor_day]
  omega

/-- An instant is less than a day past its midnight. -/
theorem floor_day_lt_add_day (y : Int) : y < floor_day y + 86400 := by
  simp only [floor_day]
  omega

/-- Truncation to midnight is monotone. -/
theorem floor_day_mono {a b : Int} (h : a ≤ b) : floor_day a ≤ floor_day b := by
  have ea : floor_day a = 86400 * (a / 86400) := by
    simp only [floor_day, Int.emod_def]
    ring
  have eb : floor_day b = 86400 * (b / 86400) := by
    simp only [floor_day, Int.emod_def]
    ring
  rw [ea, eb]
  exact mul_le_mul_of_nonneg_left (Int.ediv_le_ediv (by norm_num) h) (by norm_num)

/-- A midnight instant is its own truncation. -/
theorem floor_day_eq_self {y : Int} (h : y % 86400 = 0) : floor_day y = y := by
  simp only [floor_day]
  omega

/-- Midnight of the day after 23:59:59 of the day of `y` is one day past
the midnight of `y` — the step the historical loop takes from one
sub-window end to the next sub-window start. -/
theorem floor_day_next_day (y : Int) :
    floor_day (floor_day y + 86399 + 86400) = floor_day y + 86400 := by
  have e : floor_day y = 86400 * (y / 86400) := by
    simp only [floor_day, Int.emod_def]
    ring
  rw [e]
  simp only [floor_day]
  rw [show (86400 : Int) * (y / 86400) + 86399 + 86400
      = 86399 + 86400 * (y / 86400 + 1) by ring, Int.add_mul_emod_self_left]
  norm_num
  ring

/-- Structure of the historical sub-window list, by induction on a step
bound: starting from a midnight `hs ≤ stop` the loop produces a non-empty
list whose first window starts at `hs`, whose consecutive windows are
contiguous (each starts one second — midnight of the next local day —
after the previous end), whose every window starts at a midnight, ends at
23:59:59 of a local day, is properly ordered and spans at most 20 days
plus 86399 seconds, and whose final window ends at 23:59:59 of `stop`'s
local day. -/
theorem history_sub_windows_props (stop : Int) :
    ∀ (n : Nat) (hs : Int), (stop + 1 - hs).toNat ≤ n → hs % 86400 = 0 → hs ≤ stop →
      history_sub_windows stop hs ≠ [] ∧
      (history_sub_windows stop hs).head?.map Prod.fst = some hs ∧
      List.Chain' (fun a b => b.1 = a.2 + 1) (history_sub_windows stop hs) ∧
      (∀ w ∈ history_sub_windows stop hs,
        w.1 % 86400 = 0 ∧ w.1 ≤ w.2 ∧ w.2 % 86400 = 86399 ∧ w.2 - w.1 ≤ 1814399) ∧
      (history_sub_windows stop hs).getLast?.map Prod.snd =
        some (floor_day stop + 86399) := by
  intro n
  induction n with
  | zero =>
    intro hs hb hmid hle
    exfalso
    omega
  | succ n ih =>
    intro hs hb hmid hle
    have hA0 : floor_day (min (hs + 1728000) stop) % 86400 = 0 := floor_day_emod _
    have hAle : floor_day (min (hs + 1728000) stop) ≤ min (hs + 1728000) stop :=
      floor_day_le _
    have hAge : hs ≤ floor_day (min (hs + 1728000) stop) := by
      have h1 : hs ≤ min (hs + 1728000) stop := le_min (by omega) hle
      have h2 := floor_day_mono h1
      rwa [floor_day_eq_self hmid] at h2
    have hminle : min (hs + 1728000) stop ≤ stop := min_le_right _ _
    have hminle2 : min (hs + 1728000) stop ≤ hs + 1728000 := min_le_left _ _
    have hB0 : floor_day stop % 86400 = 0 := floor_day_emod stop
    have hBle : floor_day stop ≤ stop := floor_day_le stop
    have hBlt : stop < floor_day stop + 86400 := floor_day_lt_add_day stop
    have hABle : floor_day (min (hs + 1728000) stop) ≤ floor_day stop :=
      floor_day_mono hminle
    rw [history_sub_windows, dif_pos hle]
    dsimp only
    rw [floor_day_next_day]
    by_cases hrec : floor_day (min (hs + 1728000) stop) + 86400 ≤ stop
    · obtain ⟨hne1, hhead1, hchain1, hmem1, hlast1⟩ :=
        ih (floor_day (min (hs + 1728000) stop) + 86400) (by omega) (by omega) hrec
      rcases hws : history_sub_windows stop (floor_day (min (hs + 1728000) stop) + 86400)
        with _ | ⟨w, l⟩
      · exact absurd hws hne1
      · rw [hws] at hhead1 hchain1 hmem1 hlast1
        have hw1 : w.1 = floor_day (min (hs + 1728000) stop) + 86400 := by
          simpa using hhead1
        refine ⟨by simp, by simp, ?_, ?_, ?_⟩
        · exact List.chain'_cons.mpr ⟨by rw [hw1]; dsimp only; omega, hchain1⟩
        · intro w2 hw2
          rcases List.mem_cons.mp hw2 with h2 | h2
          · rw [h2]
            exact ⟨hmid, by omega, by omega, by omega⟩
          · exact hmem1 w2 h2
        · rw [List.getLast?_cons_cons]
          exact hlast1
    · have hnil : history_sub_windows stop
          (floor_day (min (hs + 1728000) stop) + 86400) = [] := by
        rw [history_sub_windows, dif_neg (by omega)]
      rw [hnil]
      have hAB : floor_day (min (hs + 1728000) stop) = floor_day stop := by omega
      refine ⟨by simp, by simp, by simp, ?_, ?_⟩
      · intro w2 hw2
        rw [List.mem_singleton.mp hw2]
        exact ⟨hmid, by omega, by omega, by omega⟩
      · simp [hAB]

/-- C3 counterexample: a 22-day backfill requested with local stop time
43200 (noon of day 0).  The loop produces two sub-windows; the first spans
1814399 seconds (20 days plus 23:59:59 — i.e. 21 calendar days, exceeding
the claimed at-most-20-days span), and the final sub-window ends at 86399
(23:59:59 of the stop's local day), not at the stop time 43200 as the
claim states. -/
theorem c3_counterexample :
    history_batches 22 43200 = [(-1900800, -86401), (-86400, 86399)] ∧
      ((-86401 : Int) - (-1900800) > 1728000) ∧
      ((86399 : Int) ≠ 43200) := by
  refine ⟨?_, by decide, by decide⟩
  unfold history_batches
  rw [history_sub_windows, dif_pos (by decide)]
  norm_num [floor_day]
  rw [history_sub_windows, dif_pos (by decide)]
  norm_num [floor_day]
  rw [history_sub_windows, dif_neg (by decide)]

/-- C3 amended: for a positive requested history length, the historical
loop partitions time from `(stopTime - requestedDays)` truncated to local
midnight into a non-empty sequence of contiguous, non-overlapping
sub-windows: each starts at a local midnight, the first at the truncated
requested start; each next window starts one second after the previous
ends (midnight of the following local day); each window ends at 23:59:59
local time and spans at most 20 days plus 86399 seconds (21 calendar
days, not 20 as claimed); and the final sub-window ends at 23:59:59 of
`stopTime`'s local day — at or after `stopTime`, not at `stopTime`
itself.  Contiguity plus the endpoints give single coverage of
`[truncated start, stopTime]` with no overlap. -/
theorem c3_history_batches_structure (history_days stop : Int)
    (hd : 1 ≤ history_days) :
    history_batches history_days stop ≠ [] ∧
    (history_batches history_days stop).head?.map Prod.fst =
      some (floor_day (stop - 86400 * history_days)) ∧
    List.Chain' (fun a b => b.1 = a.2 + 1) (history_batches history_days stop) ∧
    (∀ w ∈ history_batches history_days stop,
      w.1 % 86400 = 0 ∧ w.1 ≤ w.2 ∧ w.2 % 86400 = 86399 ∧ w.2 - w.1 ≤ 1814399) ∧
    (history_batches history_days stop).getLast?.map Prod.snd =
      some (floor_day stop + 86399) := by
  unfold history_batches
  refine history_sub_windows_props stop
    ((stop + 1 - floor_day (stop - 86400 * history_days)).toNat) _
    (le_refl _) (floor_day_emod _) ?_
  have h1 := floor_day_le (stop - 86400 * history_days)
  omega

/-- C3 witness: one requested day, local stop time 43200. -/
theorem c3_history_batches_structure_witness :
    ((1 : Int) ≤ 1) ∧
      (history_batches 1 43200 ≠ [] ∧
      (history_batches 1 43200).head?.map Prod.fst =
        some (floor_day (43200 - 86400 * 1)) ∧
      List.Chain' (fun a b => b.1 = a.2 + 1) (history_batches 1 43200) ∧
      (∀ w ∈ history_batches 1 43200,
        w.1 % 86400 = 0 ∧ w.1 ≤ w.2 ∧ w.2 % 86400 = 86399 ∧ w.2 - w.1 ≤ 1814399) ∧
      (history_batches 1 43200).getLast?.map Prod.snd =
        some (floor_day 43200 + 86399)) :=
  ⟨by decide, c3_history_batches_structure 1 43200 (by decide)⟩
